import Mathlib

/-!
# Auth slice: state synchronisation between remote auth operations, the store and localStorage

Shallow embedding of `client/src/store/auth-slice/index.js`.

* JavaScript values are the type `JSVal N`, over the numbers `N` of the platform; the
  coercions the slice relies on (`!!x`, `a || b`, `c ? a : b`, `String(x)`, property reads,
  `x?.p`) are functions on it.
* What the slice takes from the platform and does not define is a parameter `J : Platform N`:
  the truthiness, finiteness and text of a number, and `JSON.parse` on a string.
  `JSON.stringify` is written out over it.
* `localStorage` is a map from keys to strings, passed explicitly.
* The outcome of an `axios` call is an input of each thunk (`AxiosResult`).
* A thunk is a function from the outcome of its request and the storage to the new storage and
  the way it settles; the reducer is a function from the storage (read only), the state and an
  action to the new state, or to a fault when the JavaScript throws.
* `examplePlatform` is one platform, on which the definitions are run at concrete inputs.
-/

namespace AuthSlice

variable {N : Type}

/-! ## JavaScript values -/

/-- A JavaScript value: `undefined`, `null`, booleans, numbers (the platform's, `N`), strings,
arrays and plain objects (property list in insertion order). -/
inductive JSVal (N : Type) where
  | undefined
  | null
  | bool (b : Bool)
  | num (x : N)
  | str (s : String)
  | arr (xs : List (JSVal N))
  | obj (kvs : List (String × JSVal N))

/-- What a JavaScript `throw` gives: `JSON.parse` throws a `SyntaxError`, reading a property of
`null` or `undefined` throws a `TypeError`. -/
inductive Fault where
  | syntaxError
  | typeError
  deriving DecidableEq

/-- What the slice takes from the JavaScript platform. In a browser `N` is the IEEE doubles. -/
structure Platform (N : Type) where
  /-- ToBoolean on a number: `false` on the zeros and `NaN`. -/
  numTruthy : N → Bool
  /-- The number is neither `NaN` nor an infinity. -/
  numFinite : N → Bool
  /-- Number::toString, as characters. -/
  numText : N → List Char
  /-- The call `JSON.parse(s)` on a string: the value, or `none` when it throws a
  `SyntaxError`. -/
  parse : List Char → Option (JSVal N)

namespace JSVal

/-- ToBoolean: the truthiness used by `!!x`, `a || b` and `c ? a : b`. -/
def truthy (J : Platform N) : JSVal N → Bool
  | undefined => false
  | null => false
  | bool b => b
  | num x => J.numTruthy x
  | str s => s != ""
  | arr _ => true
  | obj _ => true

/-- The value is `null` or `undefined` (the test of `?.`). -/
def isNullish : JSVal N → Bool
  | undefined => true
  | null => true
  | _ => false

/-- The expression `!!x`. -/
def notNot (J : Platform N) (x : JSVal N) : JSVal N := bool (x.truthy J)

/-- The expression `a || b`. -/
def or (J : Platform N) (a b : JSVal N) : JSVal N := if a.truthy J then a else b

/-- The expression `c ? a : b`. -/
def cond (J : Platform N) (c a b : JSVal N) : JSVal N := if c.truthy J then a else b

/-- Own-property lookup in a property list. -/
def lookup (k : String) : List (String × JSVal N) → JSVal N
  | [] => undefined
  | (k', v) :: rest => if k' = k then v else lookup k rest

/-- The property read `x.k` for the property names the slice reads (`success`, `token`, `user`,
`message`): a `TypeError` on `null` and `undefined`, the own property on an object, `undefined`
on every other value. -/
def getProp (x : JSVal N) (k : String) : Except Fault (JSVal N) :=
  match x with
  | undefined => .error .typeError
  | null => .error .typeError
  | obj kvs => .ok (lookup k kvs)
  | _ => .ok undefined

/-- The optional read `x?.k`. -/
def optProp (x : JSVal N) (k : String) : JSVal N :=
  match getProp x k with
  | .ok v => v
  | .error _ => undefined

end JSVal

/-! ## String coercion -/

mutual
/-- ToString: the coercion `String(x)` applied by `localStorage.setItem` and `JSON.parse`. -/
def toStrChars (J : Platform N) : JSVal N → List Char
  | .undefined => "undefined".data
  | .null => "null".data
  | .bool true => "true".data
  | .bool false => "false".data
  | .num x => J.numText x
  | .str s => s.data
  | .arr xs => joinChars J xs
  | .obj _ => "[object Object]".data
termination_by structural v => v
/-- Array.prototype.join with a comma: `null` and `undefined` elements give the empty text. -/
def joinChars (J : Platform N) : List (JSVal N) → List Char
  | [] => []
  | x :: rest =>
    (if x.isNullish then [] else toStrChars J x) ++
      (match rest with
       | [] => []
       | _ :: _ => ',' :: joinChars J rest)
termination_by structural v => v
end

/-- ToString as a string. -/
def JSVal.toStr (J : Platform N) (x : JSVal N) : String := String.mk (toStrChars J x)

/-! ## JSON text -/

/-- Lower-case hexadecimal digit of `d < 16`. -/
def hexDigit (d : Nat) : Char := if d < 10 then Char.ofNat (48 + d) else Char.ofNat (87 + d)

/-- Value of a hexadecimal digit, either case. -/
def hexVal (c : Char) : Option Nat :=
  if 48 ≤ c.toNat ∧ c.toNat ≤ 57 then some (c.toNat - 48)
  else if 97 ≤ c.toNat ∧ c.toNat ≤ 102 then some (c.toNat - 87)
  else if 65 ≤ c.toNat ∧ c.toNat ≤ 70 then some (c.toNat - 55)
  else none

/-- QuoteJSONString on one character: the two-character escapes, `\u00xx` for the other
control characters, the character itself otherwise. -/
def quoteChar (c : Char) : List Char :=
  if c = '"' then ['\\', '"']
  else if c = '\\' then ['\\', '\\']
  else if c = Char.ofNat 8 then ['\\', 'b']
  else if c = Char.ofNat 12 then ['\\', 'f']
  else if c = Char.ofNat 10 then ['\\', 'n']
  else if c = Char.ofNat 13 then ['\\', 'r']
  else if c = Char.ofNat 9 then ['\\', 't']
  else if c.toNat < 32 then ['\\', 'u', '0', '0', hexDigit (c.toNat / 16), hexDigit (c.toNat % 16)]
  else [c]

/-- The escaped characters of a string followed by the closing quote. -/
def quoteBody : List Char → List Char
  | [] => ['"']
  | c :: rest => quoteChar c ++ quoteBody rest

/-- QuoteJSONString. -/
def quoteText (s : List Char) : List Char := '"' :: quoteBody s

mutual
/-- SerializeJSONProperty: the JSON text of a value, `none` when `JSON.stringify` gives
`undefined`. A number that is not finite is written `null`. -/
def serialize (J : Platform N) : JSVal N → Option (List Char)
  | .undefined => none
  | .null => some "null".data
  | .bool true => some "true".data
  | .bool false => some "false".data
  | .num x => some (if J.numFinite x then J.numText x else "null".data)
  | .str s => some (quoteText s.data)
  | .arr xs => some ('[' :: serializeElems J xs)
  | .obj kvs => some ('{' :: serializeMembers J false kvs)
termination_by structural v => v
/-- SerializeJSONArray after the opening bracket: an `undefined` element is written `null`. -/
def serializeElems (J : Platform N) : List (JSVal N) → List Char
  | [] => [']']
  | x :: rest =>
    (match serialize J x with
     | some t => t
     | none => "null".data) ++
      (match rest with
       | [] => [']']
       | _ :: _ => ',' :: serializeElems J rest)
termination_by structural v => v
/-- SerializeJSONObject after the opening brace: a property whose value is `undefined` is
left out; `started` tells whether a property was already written. -/
def serializeMembers (J : Platform N) (started : Bool) : List (String × JSVal N) → List Char
  | [] => ['}']
  | (k, v) :: rest =>
    match serialize J v with
    | none => serializeMembers J started rest
    | some t =>
      (if started then [','] else []) ++ quoteText k.data ++ ':' :: t ++
        serializeMembers J true rest
termination_by structural v => v
end

/-- The call `JSON.stringify(x)`: a string, or `undefined`. -/
def JSON_stringify (J : Platform N) (x : JSVal N) : JSVal N :=
  match serialize J x with
  | some t => .str (String.mk t)
  | none => .undefined

/-- The call `JSON.parse(x)`: the argument is coerced to a string (so `null` reads as the text
`null`), and a text that is not JSON throws a `SyntaxError`. -/
def JSON_parse (J : Platform N) (x : JSVal N) : Except Fault (JSVal N) :=
  match J.parse (toStrChars J x) with
  | some v => .ok v
  | none => .error .syntaxError

/-! ## localStorage -/

/-- The browser's `localStorage`: each key holds a string or is absent. -/
abbrev Storage := String → Option String

/-- The call `localStorage.getItem(k)`: the stored string, or `null`. -/
def getItem (ls : Storage) (k : String) : JSVal N :=
  match ls k with
  | some s => .str s
  | none => .null

/-- The call `localStorage.setItem(k, v)`: the value is stored as a string. -/
def setItem (J : Platform N) (ls : Storage) (k : String) (v : JSVal N) : Storage :=
  fun k' => if k' = k then some (v.toStr J) else ls k'

/-- The call `localStorage.removeItem(k)`. -/
def removeItem (ls : Storage) (k : String) : Storage :=
  fun k' => if k' = k then none else ls k'

/-! ## State -/

/-- The state of the `auth` slice. -/
structure AuthState (N : Type) where
  isAuthenticated : JSVal N
  isLoading : Bool
  user : JSVal N
  error : JSVal N
  resetPasswordStatus : JSVal N
  resetPasswordError : JSVal N

/-- The module-level `initialState`, evaluated when the module is loaded: it reads both
records, and a `JSON.parse` that throws makes the evaluation throw. -/
def initialState (J : Platform N) (ls : Storage) : Except Fault (AuthState N) :=
  match JSON_parse J (getItem ls "user") with
  | .error e => .error e
  | .ok parsed =>
    .ok { isAuthenticated := (getItem ls "authToken").notNot J
          isLoading := false
          user := parsed.or J .null
          error := .null
          resetPasswordStatus := .null
          resetPasswordError := .null }

/-! ## Thunks -/

/-- How an `axios` call ends: the promise resolves with a response (its `data`), or rejects
with an error that carries the server's response (its `data`) or none. -/
inductive AxiosResult (N : Type) where
  | response (data : JSVal N)
  | error (response : Option (JSVal N))

/-- How a thunk settles: `fulfilled` with the returned payload, or `rejected` with the value
given to `rejectWithValue` (`undefined` when the payload creator threw). -/
inductive ThunkResult (N : Type) where
  | fulfilled (payload : JSVal N)
  | rejected (payload : JSVal N)

/-- The object literal of every `catch` block. -/
def genericFailure : JSVal N := .obj [("message", .str "An unexpected error occurred")]

/-- The expression `error.response?.data`. -/
def errorData : Option (JSVal N) → JSVal N
  | none => .undefined
  | some d => d

/-- The value every `catch` block rejects with:
`error.response?.data || { message: "An unexpected error occurred" }`. -/
def rejectValue (J : Platform N) (response : Option (JSVal N)) : JSVal N :=
  (errorData response).or J genericFailure

/-- The thunk `registerUser`. -/
def registerUser (J : Platform N) (res : AxiosResult N) (ls : Storage) :
    Storage × ThunkResult N :=
  match res with
  | .response data => (ls, .fulfilled data)
  | .error r => (ls, .rejected (rejectValue J r))

/-- The thunk `loginUser`. Reading `response.data.success` throws inside the `try` when the
body is `null` or absent; the `catch` block then sees an error without a `response`. Once that
read has succeeded the reads of `token` and `user` cannot throw. -/
def loginUser (J : Platform N) (res : AxiosResult N) (ls : Storage) :
    Storage × ThunkResult N :=
  match res with
  | .response data =>
    match data.getProp "success" with
    | .error _ => (ls, .rejected (rejectValue J none))
    | .ok success =>
      if success.truthy J then
        let ls1 := setItem J ls "authToken" (data.optProp "token")
        let ls2 := setItem J ls1 "user" (JSON_stringify J (data.optProp "user"))
        (ls2, .fulfilled data)
      else (ls, .fulfilled data)
  | .error r => (ls, .rejected (rejectValue J r))

/-- The thunk `logoutUser`. -/
def logoutUser (J : Platform N) (res : AxiosResult N) (ls : Storage) :
    Storage × ThunkResult N :=
  match res with
  | .response data => (removeItem (removeItem ls "authToken") "user", .fulfilled data)
  | .error r => (ls, .rejected (rejectValue J r))

/-- The thunk `checkAuth`. -/
def checkAuth (J : Platform N) (res : AxiosResult N) (ls : Storage) :
    Storage × ThunkResult N :=
  match res with
  | .response data => (ls, .fulfilled data)
  | .error r => (ls, .rejected (rejectValue J r))

/-- The thunk `verifyUser`. Its parameter `{ email, code }` is destructured before the `try`:
a `null` or `undefined` argument throws there and no request is made. -/
def verifyUser (J : Platform N) (arg : JSVal N) (res : AxiosResult N) (ls : Storage) :
    Storage × ThunkResult N :=
  if arg.isNullish then (ls, .rejected .undefined)
  else
    match res with
    | .response data => (ls, .fulfilled data)
    | .error r => (ls, .rejected (rejectValue J r))

/-- The thunk `requestPasswordReset`. -/
def requestPasswordReset (J : Platform N) (res : AxiosResult N) (ls : Storage) :
    Storage × ThunkResult N :=
  match res with
  | .response data => (ls, .fulfilled data)
  | .error r => (ls, .rejected (rejectValue J r))

/-- The thunk `resetPassword`. Its parameter `{ token, newPassword }` is destructured before
the `try`, as in `verifyUser`. -/
def resetPassword (J : Platform N) (arg : JSVal N) (res : AxiosResult N) (ls : Storage) :
    Storage × ThunkResult N :=
  if arg.isNullish then (ls, .rejected .undefined)
  else
    match res with
    | .response data => (ls, .fulfilled data)
    | .error r => (ls, .rejected (rejectValue J r))

/-- The seven operations. -/
inductive Op where
  | register
  | login
  | logout
  | checkAuth
  | verify
  | requestPasswordReset
  | resetPassword
  deriving DecidableEq

/-- The thunk of an operation, on its argument and the outcome of its request. -/
def runThunk (J : Platform N) (op : Op) (arg : JSVal N) (res : AxiosResult N) (ls : Storage) :
    Storage × ThunkResult N :=
  match op with
  | .register => registerUser J res ls
  | .login => loginUser J res ls
  | .logout => logoutUser J res ls
  | .checkAuth => checkAuth J res ls
  | .verify => verifyUser J arg res ls
  | .requestPasswordReset => requestPasswordReset J res ls
  | .resetPassword => resetPassword J arg res ls

/-! ## Reducer -/

/-- The three lifecycle phases of a thunk. -/
inductive Phase where
  | pending
  | fulfilled
  | rejected
  deriving DecidableEq

/-- The actions the slice can receive. -/
inductive Action (N : Type) where
  | setUser (payload : JSVal N)
  | lifecycle (op : Op) (phase : Phase) (payload : JSVal N)

/-- The reducer of `authSlice` (`reducers` and `extraReducers`); `ls` is the storage the case
reducers read. A lifecycle action without a case (`logout.pending`, `logout.rejected`) returns
the state as it is. The result is a fault when a case reducer throws. -/
def authReducer (J : Platform N) (ls : Storage) (state : AuthState N) :
    Action N → Except Fault (AuthState N)
  | .setUser payload => .ok { state with user := payload, isAuthenticated := payload.notNot J }
  | .lifecycle .register .pending _ => .ok { state with isLoading := true, error := .null }
  | .lifecycle .register .fulfilled _ => .ok { state with isLoading := false }
  | .lifecycle .register .rejected payload =>
    .ok { state with
          isLoading := false
          error := (payload.optProp "message").or J (.str "Registration failed") }
  | .lifecycle .login .pending _ => .ok { state with isLoading := true, error := .null }
  | .lifecycle .login .fulfilled payload =>
    match payload.getProp "success" with
    | .error e => .error e
    | .ok success =>
      .ok { state with
            isLoading := false
            user := success.cond J (payload.optProp "user") .null
            isAuthenticated := success }
  | .lifecycle .login .rejected payload =>
    .ok { state with
          isLoading := false
          user := .null
          isAuthenticated := .bool false
          error := (payload.optProp "message").or J (.str "Login failed") }
  | .lifecycle .logout .fulfilled _ =>
    .ok { state with isAuthenticated := .bool false, user := .null, error := .null }
  | .lifecycle .checkAuth .pending _ => .ok { state with isLoading := true }
  | .lifecycle .checkAuth .fulfilled payload =>
    match payload.getProp "success" with
    | .error e => .error e
    | .ok success =>
      match (if success.truthy J then .ok (payload.optProp "user")
             else JSON_parse J (getItem ls "user")) with
      | .error e => .error e
      | .ok user =>
        .ok { state with
              isLoading := false
              user := user
              isAuthenticated := success.or J ((getItem ls "authToken").notNot J) }
  | .lifecycle .checkAuth .rejected payload =>
    .ok { state with
          isLoading := false
          error := (payload.optProp "message").or J (.str "Authentication check failed") }
  | .lifecycle .verify .pending _ => .ok { state with isLoading := true }
  | .lifecycle .verify .fulfilled payload =>
    match payload.getProp "success" with
    | .error e => .error e
    | .ok success =>
      .ok { state with
            isLoading := false
            user := success.cond J (payload.optProp "user") .null
            isAuthenticated := success }
  | .lifecycle .verify .rejected payload =>
    .ok { state with
          isLoading := false
          error := (payload.optProp "message").or J (.str "Verification failed") }
  | .lifecycle .requestPasswordReset .pending _ => .ok { state with isLoading := true }
  | .lifecycle .requestPasswordReset .fulfilled payload =>
    match payload.getProp "success" with
    | .error e => .error e
    | .ok success =>
      .ok { state with
            isLoading := false
            resetPasswordStatus :=
              success.cond J (.str "Request Successful") (.str "Request Failed") }
  | .lifecycle .requestPasswordReset .rejected payload =>
    .ok { state with
          isLoading := false
          resetPasswordStatus := .str "Request Failed"
          resetPasswordError := payload }
  | .lifecycle .resetPassword .pending _ => .ok { state with isLoading := true }
  | .lifecycle .resetPassword .fulfilled payload =>
    match payload.getProp "success" with
    | .error e => .error e
    | .ok success =>
      .ok { state with
            isLoading := false
            resetPasswordStatus :=
              success.cond J (.str "Password Reset Successful") (.str "Password Reset Failed") }
  | .lifecycle .resetPassword .rejected payload =>
    .ok { state with
          isLoading := false
          resetPasswordStatus := .str "Password Reset Failed"
          resetPasswordError := payload }
  | .lifecycle .logout .pending _ => .ok state
  | .lifecycle .logout .rejected _ => .ok state

/-! ## Runs of the store -/

/-- The store's `dispatch`: a case reducer that throws leaves the state as it was. -/
def dispatch (J : Platform N) (ls : Storage) (state : AuthState N) (a : Action N) : AuthState N :=
  match authReducer J ls state a with
  | .ok state' => state'
  | .error _ => state

/-- The action a thunk dispatches when it settles. -/
def settleAction (op : Op) : ThunkResult N → Action N
  | .fulfilled payload => .lifecycle op .fulfilled payload
  | .rejected payload => .lifecycle op .rejected payload

/-- What can happen to the store: a `setUser` call, the pending action of an operation, a
rejected action with any payload, or an operation settling on the outcome of its request (the
thunk's storage effect followed by the action it dispatches). -/
inductive Event (N : Type) where
  | setUser (x : JSVal N)
  | pending (op : Op)
  | rejected (op : Op) (payload : JSVal N)
  | settled (op : Op) (arg : JSVal N) (res : AxiosResult N)

/-- One event applied to the storage and the state. -/
def step (J : Platform N) (c : Storage × AuthState N) : Event N → Storage × AuthState N
  | .setUser x => (c.1, dispatch J c.1 c.2 (.setUser x))
  | .pending op => (c.1, dispatch J c.1 c.2 (.lifecycle op .pending .undefined))
  | .rejected op payload => (c.1, dispatch J c.1 c.2 (.lifecycle op .rejected payload))
  | .settled op arg res =>
    ((runThunk J op arg res c.1).1,
      dispatch J (runThunk J op arg res c.1).1 c.2 (settleAction op (runThunk J op arg res c.1).2))

/-- A sequence of events applied in order. -/
def run (J : Platform N) (c : Storage × AuthState N) (evs : List (Event N)) :
    Storage × AuthState N :=
  evs.foldl (step J) c

/-! ## An example platform

One platform, on which the definitions are run at concrete inputs. It is not the browser's: its
numbers are the integers and one infinity, it writes every integer in plain decimal, and its
`JSON.parse` reads only the JSON texts whose numbers are written as integers, keeping the
properties in the order of the text; it refuses a number with a fraction or an exponent and a
`\u` escape of an unpaired surrogate. The runs below give it the texts `not json` and
`undefined`, which it refuses as a browser does, and `null`, `0`, `{}`, `{"id":1}`,
`{"id":null}`, which it reads as a browser does. The statements about every platform do not
depend on it. -/

/-- The numbers of the example platform. -/
inductive ExNum where
  | int (n : Int)
  | infinity

/-- The decimal digit character of `d < 10`. -/
def digitChar (d : Nat) : Char := Char.ofNat (48 + d)

/-- Decimal digits of a natural number, most significant first (`fuel > n` is enough). -/
def natText : Nat → Nat → List Char
  | 0, _ => []
  | fuel + 1, n => if n < 10 then [digitChar n] else natText fuel (n / 10) ++ [digitChar (n % 10)]

/-- The decimal text of an integer. -/
def intText : Int → List Char
  | .ofNat n => natText (n + 1) n
  | .negSucc n => '-' :: natText (n + 2) (n + 1)

/-- ToBoolean on the numbers of the example platform. -/
def ExNum.truthy : ExNum → Bool
  | .int n => n != 0
  | .infinity => true

/-- The number is an integer. -/
def ExNum.finite : ExNum → Bool
  | .int _ => true
  | .infinity => false

/-- Number::toString on the numbers of the example platform. -/
def ExNum.text : ExNum → List Char
  | .int n => intText n
  | .infinity => "Infinity".data

/-- JSON white space. -/
def isWs (c : Char) : Bool := c = ' ' || c = Char.ofNat 9 || c = Char.ofNat 10 || c = Char.ofNat 13

/-- Drop leading white space. -/
def skipWs : List Char → List Char
  | [] => []
  | c :: rest => if isWs c then skipWs rest else c :: rest

/-- Consume the given characters, or fail. -/
def expectLit : List Char → List Char → Option (List Char)
  | [], cs => some cs
  | _ :: _, [] => none
  | p :: ps, c :: cs => if p = c then expectLit ps cs else none

/-- A decimal digit. -/
def isDigit (c : Char) : Bool := decide (48 ≤ c.toNat) && decide (c.toNat ≤ 57)

/-- The leading run of digits and what follows it. -/
def takeDigits : List Char → List Char × List Char
  | [] => ([], [])
  | c :: rest =>
    if isDigit c then (c :: (takeDigits rest).1, (takeDigits rest).2) else ([], c :: rest)

/-- Value of a digit string. -/
def digitsValue (ds : List Char) : Nat := ds.foldl (fun a c => 10 * a + (c.toNat - 48)) 0

/-- The integer part of a JSON number: `0`, or digits without a leading zero. -/
def parseNat (cs : List Char) : Option (Nat × List Char) :=
  match takeDigits cs with
  | ([], _) => none
  | (d :: ds, rest) => if d = '0' ∧ ds ≠ [] then none else some (digitsValue (d :: ds), rest)

/-- A JSON number of the integer subset `-?(0|[1-9][0-9]*)`. A fraction or exponent part is
left unread, so the text that carries one is rejected by the caller. -/
def parseNum : List Char → Option (JSVal ExNum × List Char)
  | [] => none
  | c :: rest =>
    if c = '-' then (parseNat rest).map (fun p => (JSVal.num (.int (-(p.1 : Int))), p.2))
    else (parseNat (c :: rest)).map (fun p => (JSVal.num (.int (p.1 : Int)), p.2))

/-- Four hexadecimal digits. -/
def hex4 : List Char → Option (Nat × List Char)
  | a :: b :: c :: d :: rest =>
    match hexVal a, hexVal b, hexVal c, hexVal d with
    | some x, some y, some z, some w => some (((x * 16 + y) * 16 + z) * 16 + w, rest)
    | _, _, _, _ => none
  | _ => none

/-- The character denoted by an escape, given the text after the backslash. A `\u` escape of a
surrogate must be the first half of a pair; an unpaired one has no counterpart in `Char` and is
rejected. -/
def unescape : List Char → Option (Char × List Char)
  | [] => none
  | e :: rest =>
    if e = '"' then some ('"', rest)
    else if e = '\\' then some ('\\', rest)
    else if e = '/' then some ('/', rest)
    else if e = 'b' then some (Char.ofNat 8, rest)
    else if e = 'f' then some (Char.ofNat 12, rest)
    else if e = 'n' then some (Char.ofNat 10, rest)
    else if e = 'r' then some (Char.ofNat 13, rest)
    else if e = 't' then some (Char.ofNat 9, rest)
    else if e = 'u' then
      match hex4 rest with
      | none => none
      | some (n, r1) =>
        if n < 55296 ∨ 57344 ≤ n then some (Char.ofNat n, r1)
        else if n < 56320 then
          match r1 with
          | b :: u :: r2 =>
            if b = '\\' ∧ u = 'u' then
              match hex4 r2 with
              | none => none
              | some (m, r3) =>
                if 56320 ≤ m ∧ m < 57344 then
                  some (Char.ofNat (65536 + (n - 55296) * 1024 + (m - 56320)), r3)
                else none
            else none
          | _ => none
        else none
    else none

/-- The characters of a JSON string up to its closing quote, given the text after the opening
quote. A raw control character is rejected. -/
def parseChars : Nat → List Char → Option (List Char × List Char)
  | 0, _ => none
  | _ + 1, [] => none
  | fuel + 1, c :: rest =>
    if c = '"' then some ([], rest)
    else if c = '\\' then
      match unescape rest with
      | none => none
      | some (ch, r1) => (parseChars fuel r1).map (fun p => (ch :: p.1, p.2))
    else if c.toNat < 32 then none
    else (parseChars fuel rest).map (fun p => (c :: p.1, p.2))

/-- CreateDataProperty on a property list: an existing key keeps its place and takes the new
value, a new key goes last. -/
def setProp (k : String) (v : JSVal ExNum) :
    List (String × JSVal ExNum) → List (String × JSVal ExNum)
  | [] => [(k, v)]
  | (k', v') :: rest => if k' = k then (k', v) :: rest else (k', v') :: setProp k v rest

/-- The object built from the members of a JSON object text, in order. -/
def mkObject (members : List (String × JSVal ExNum)) : JSVal ExNum :=
  .obj (members.foldl (fun acc kv => setProp kv.1 kv.2 acc) [])

mutual
/-- A JSON value, with leading white space; the rest of the text is returned. -/
def parseVal : Nat → List Char → Option (JSVal ExNum × List Char)
  | 0, _ => none
  | fuel + 1, cs =>
    match skipWs cs with
    | [] => none
    | c :: rest =>
      if c = 'n' then (expectLit ['u', 'l', 'l'] rest).map (fun t => (JSVal.null, t))
      else if c = 't' then (expectLit ['r', 'u', 'e'] rest).map (fun t => (JSVal.bool true, t))
      else if c = 'f' then
        (expectLit ['a', 'l', 's', 'e'] rest).map (fun t => (JSVal.bool false, t))
      else if c = '"' then
        (parseChars (rest.length + 1) rest).map (fun p => (JSVal.str (String.mk p.1), p.2))
      else if c = '[' then
        match skipWs rest with
        | [] => none
        | d :: r1 =>
          if d = ']' then some (JSVal.arr [], r1)
          else (parseElems fuel rest).map (fun p => (JSVal.arr p.1, p.2))
      else if c = '{' then
        match skipWs rest with
        | [] => none
        | d :: r1 =>
          if d = '}' then some (JSVal.obj [], r1)
          else (parseMembers fuel rest).map (fun p => (mkObject p.1, p.2))
      else parseNum (c :: rest)
/-- The elements of a non-empty array up to the closing bracket. -/
def parseElems : Nat → List Char → Option (List (JSVal ExNum) × List Char)
  | 0, _ => none
  | fuel + 1, cs =>
    match parseVal fuel cs with
    | none => none
    | some (v, r1) =>
      match skipWs r1 with
      | [] => none
      | c :: r2 =>
        if c = ',' then (parseElems fuel r2).map (fun p => (v :: p.1, p.2))
        else if c = ']' then some ([v], r2)
        else none
/-- The members of a non-empty object up to the closing brace. -/
def parseMembers : Nat → List Char → Option (List (String × JSVal ExNum) × List Char)
  | 0, _ => none
  | fuel + 1, cs =>
    match skipWs cs with
    | [] => none
    | q :: r0 =>
      if q = '"' then
        match parseChars (r0.length + 1) r0 with
        | none => none
        | some (k, r1) =>
          match skipWs r1 with
          | [] => none
          | c1 :: r2 =>
            if c1 = ':' then
              match parseVal fuel r2 with
              | none => none
              | some (v, r3) =>
                match skipWs r3 with
                | [] => none
                | c3 :: r4 =>
                  if c3 = ',' then
                    (parseMembers fuel r4).map (fun p => ((String.mk k, v) :: p.1, p.2))
                  else if c3 = '}' then some ([(String.mk k, v)], r4)
                  else none
            else none
      else none
end

/-- Parse a whole JSON text: one value, white space around it, nothing else. -/
def parseText (cs : List Char) : Option (JSVal ExNum) :=
  match parseVal (cs.length + 1) cs with
  | none => none
  | some (v, rest) => if skipWs rest = [] then some v else none

/-- The example platform. -/
def examplePlatform : Platform ExNum where
  numTruthy := ExNum.truthy
  numFinite := ExNum.finite
  numText := ExNum.text
  parse := parseText

/-! ## Predicates used to state the properties -/

/-- The storage with no record. -/
def emptyStorage : Storage := fun _ => none

/-- The JSON text `{"id":1}`. -/
def userOneText : String := "\x7b\"id\":1\x7d"

/-- The state of a store started on empty storage. -/
def signedOut : AuthState N :=
  { isAuthenticated := .bool false, isLoading := false, user := .null, error := .null,
    resetPasswordStatus := .null, resetPasswordError := .null }

/-- A response of the session-granting kind either does not report success or carries a user
that is neither `null` nor absent. -/
def carriesUser (J : Platform N) (data : JSVal N) : Bool :=
  !(data.optProp "success").truthy J || !(data.optProp "user").isNullish

/-- The events in which a `verify` or `checkAuth` response that reports success carries a
user. -/
def Event.userBacked (J : Platform N) : Event N → Bool
  | .settled .verify _ (.response data) => carriesUser J data
  | .settled .checkAuth _ (.response data) => carriesUser J data
  | _ => true

/-- The store never shows a session that nothing backs: when `isAuthenticated` is truthy, a
user is known or an `authToken` record is stored. -/
def Backed (J : Platform N) (c : Storage × AuthState N) : Prop :=
  c.2.isAuthenticated.truthy J = true → c.2.user.isNullish = false ∨ c.1 "authToken" ≠ none

/-- The event is the pending action of the operation. -/
def Event.starts (op : Op) : Event N → Bool
  | .pending op' => decide (op' = op)
  | _ => false

/-- The event applies the fulfilled or the rejected action of the operation. -/
def Event.finishes (op : Op) : Event N → Bool
  | .rejected op' _ => decide (op' = op)
  | .settled op' _ _ => decide (op' = op)
  | _ => false

/-- The operation was started in the run and none of the events of the run applies its
fulfilled or rejected action. -/
def outstanding (evs : List (Event N)) (op : Op) : Bool :=
  evs.any (Event.starts op) && !evs.any (Event.finishes op)

/-! ## The session invariant along a run -/

theorem getProp_ok_optProp {x : JSVal N} {k : String} {v : JSVal N} (h : x.getProp k = .ok v) :
    x.optProp k = v := by
  simp [JSVal.optProp, h]

theorem backed_initial (J : Platform N) (ls : Storage) (st : AuthState N)
    (h : initialState J ls = .ok st) :
    Backed J (ls, st) := by
  unfold initialState at h
  split at h
  · cases h
  · cases h
    simp only [Backed, JSVal.notNot, JSVal.truthy, getItem]
    intro hauth
    right
    intro hnone
    simp [hnone, JSVal.truthy] at hauth

theorem backed_step (J : Platform N) (c : Storage × AuthState N) (e : Event N)
    (he : e.userBacked J = true) (h : Backed J c) : Backed J (step J c e) := by
  obtain ⟨ls, st⟩ := c
  unfold Backed at h ⊢
  simp only at h
  rcases e with x | op | ⟨op, p⟩ | ⟨op, arg, res⟩
  · -- setUser
    simp only [step, dispatch, authReducer, JSVal.notNot, JSVal.truthy]
    intro hx
    left
    cases x <;> simp_all [JSVal.truthy, JSVal.isNullish]
  · cases op <;> simpa [step, dispatch, authReducer] using h
  · cases op <;> simp [step, dispatch, authReducer, JSVal.truthy] <;> exact h
  · cases op <;> cases res
    case login.response data =>
      cases hs : data.getProp "success" with
      | error e =>
        simp [step, runThunk, loginUser, hs, settleAction, dispatch, authReducer, JSVal.truthy]
      | ok s =>
        by_cases ht : s.truthy J = true
        · simp [step, runThunk, loginUser, hs, ht, settleAction, dispatch, authReducer, setItem]
        · simp [step, runThunk, loginUser, hs, ht, settleAction, dispatch, authReducer]
    case checkAuth.response data =>
      cases hs : data.getProp "success" with
      | error e =>
        simpa [step, runThunk, checkAuth, hs, settleAction, dispatch, authReducer] using h
      | ok s =>
        have hopt := getProp_ok_optProp hs
        by_cases ht : s.truthy J = true
        · have hu : (data.optProp "user").isNullish = false := by
            simpa [Event.userBacked, carriesUser, hopt, ht] using he
          simp [step, runThunk, checkAuth, hs, ht, settleAction, dispatch, authReducer, hu]
        · cases hp : JSON_parse J (getItem ls "user") with
          | error e =>
            simpa [step, runThunk, checkAuth, hs, ht, hp, settleAction, dispatch, authReducer]
              using h
          | ok u =>
            simp only [step, runThunk, checkAuth, hs, ht, hp, settleAction, dispatch, authReducer,
              JSVal.or, JSVal.notNot]
            intro hauth
            right
            intro hnone
            simp [getItem, hnone, JSVal.truthy, ht] at hauth
    case verify.response data =>
      by_cases ha : arg.isNullish = true
      · simpa [step, runThunk, verifyUser, ha, settleAction, dispatch, authReducer] using h
      · cases hs : data.getProp "success" with
        | error e =>
          simpa [step, runThunk, verifyUser, ha, hs, settleAction, dispatch, authReducer] using h
        | ok s =>
          have hopt := getProp_ok_optProp hs
          by_cases ht : s.truthy J = true
          · have hu : (data.optProp "user").isNullish = false := by
              simpa [Event.userBacked, carriesUser, hopt, ht] using he
            simp [step, runThunk, verifyUser, ha, hs, ht, settleAction, dispatch, authReducer,
              JSVal.cond, hu]
          · simp [step, runThunk, verifyUser, ha, hs, ht, settleAction, dispatch, authReducer]
    case verify.error r =>
      by_cases ha : arg.isNullish = true <;>
        simpa [step, runThunk, verifyUser, ha, settleAction, dispatch, authReducer] using h
    case resetPassword.response data =>
      by_cases ha : arg.isNullish = true
      · simpa [step, runThunk, resetPassword, ha, settleAction, dispatch, authReducer] using h
      · cases hs : data.getProp "success" <;>
          simpa [step, runThunk, resetPassword, ha, hs, settleAction, dispatch, authReducer]
            using h
    case resetPassword.error r =>
      by_cases ha : arg.isNullish = true <;>
        simpa [step, runThunk, resetPassword, ha, settleAction, dispatch, authReducer] using h
    case requestPasswordReset.response data =>
      cases hs : data.getProp "success" <;>
        simpa [step, runThunk, requestPasswordReset, hs, settleAction, dispatch, authReducer]
          using h
    case logout.response data =>
      simp [step, runThunk, logoutUser, settleAction, dispatch, authReducer, JSVal.truthy]
    case login.error r =>
      simp [step, runThunk, loginUser, settleAction, dispatch, authReducer, JSVal.truthy]
    all_goals
      simpa [step, runThunk, registerUser, logoutUser, checkAuth, requestPasswordReset,
        settleAction, dispatch, authReducer] using h

theorem backed_run (J : Platform N) (evs : List (Event N)) :
    ∀ c : Storage × AuthState N, (∀ e ∈ evs, e.userBacked J = true) → Backed J c →
      Backed J (run J c evs) := by
  induction evs with
  | nil => intro c _ h; exact h
  | cons e rest ih =>
    intro c he h
    exact ih (step J c e) (fun e' he' => he e' (List.mem_cons_of_mem _ he'))
      (backed_step J c e (he e (List.mem_cons_self _ _)) h)

/-! ## Serialising a value -/

theorem JSON_stringify_defined (J : Platform N) (u : JSVal N) (h : u ≠ .undefined) :
    ∃ txt : String, JSON_stringify J u = .str txt := by
  cases u with
  | undefined => exact absurd rfl h
  | bool b => cases b <;> exact ⟨_, rfl⟩
  | arr xs => exact ⟨_, by simp [JSON_stringify, serialize]; rfl⟩
  | obj kvs => exact ⟨_, by simp [JSON_stringify, serialize]; rfl⟩
  | _ => exact ⟨_, rfl⟩

theorem toStr_str (J : Platform N) (s : String) : (JSVal.str s).toStr J = s := rfl

/-! ## The claims -/

/-- C1, as stated, fails: on empty storage a `verify` response `{success: true, user: null}`
leads to a state with `isAuthenticated = true`, `user = null` and no `authToken` record. -/
theorem verify_success_without_user_unbacked :
    initialState examplePlatform emptyStorage = .ok signedOut ∧
    (run examplePlatform (emptyStorage, signedOut)
      [.settled .verify (.obj [("email", .str "a@b.com"), ("code", .str "1234")])
        (.response (.obj [("success", .bool true), ("user", .null)]))]).2.isAuthenticated
      = .bool true ∧
    (run examplePlatform (emptyStorage, signedOut)
      [.settled .verify (.obj [("email", .str "a@b.com"), ("code", .str "1234")])
        (.response (.obj [("success", .bool true), ("user", .null)]))]).2.user = .null ∧
    (run examplePlatform (emptyStorage, signedOut)
      [.settled .verify (.obj [("email", .str "a@b.com"), ("code", .str "1234")])
        (.response (.obj [("success", .bool true), ("user", .null)]))]).1 "authToken" = none :=
  ⟨rfl, rfl, rfl, rfl⟩

/-- C1, amended: in every state reached from any storage content by any sequence of `setUser`
calls, pending and rejected actions (any payload) and settled operations (any response), in
which every `verify` and `checkAuth` response that reports success carries a user, a truthy
`isAuthenticated` comes with a user that is neither `null` nor `undefined`, or with a stored
`authToken` record. -/
theorem authenticated_is_backed (J : Platform N) (ls0 : Storage) (st0 : AuthState N)
    (evs : List (Event N)) (hinit : initialState J ls0 = .ok st0)
    (hev : ∀ e ∈ evs, e.userBacked J = true) :
    (run J (ls0, st0) evs).2.isAuthenticated.truthy J = true →
      (run J (ls0, st0) evs).2.user.isNullish = false ∨
        (run J (ls0, st0) evs).1 "authToken" ≠ none :=
  backed_run J evs (ls0, st0) hev (backed_initial J ls0 st0 hinit)

/-- C1, amended, at a run: a successful `verify` carrying the user `{id: 1}`, then a
`checkAuth` that fails. -/
theorem authenticated_is_backed_witness :
    initialState examplePlatform emptyStorage = .ok signedOut ∧
    (∀ e ∈ [Event.settled .verify (.obj [("email", .str "a@b.com"), ("code", .str "1234")])
              (.response
                (.obj [("success", .bool true), ("user", .obj [("id", .num (.int 1))])])),
            Event.settled .checkAuth .undefined (.error none)],
      e.userBacked examplePlatform = true) ∧
    ((run examplePlatform (emptyStorage, signedOut)
        [Event.settled .verify (.obj [("email", .str "a@b.com"), ("code", .str "1234")])
          (.response (.obj [("success", .bool true), ("user", .obj [("id", .num (.int 1))])])),
         Event.settled .checkAuth .undefined (.error none)]).2.isAuthenticated.truthy
        examplePlatform = true →
      (run examplePlatform (emptyStorage, signedOut)
        [Event.settled .verify (.obj [("email", .str "a@b.com"), ("code", .str "1234")])
          (.response (.obj [("success", .bool true), ("user", .obj [("id", .num (.int 1))])])),
         Event.settled .checkAuth .undefined (.error none)]).2.user.isNullish = false ∨
      (run examplePlatform (emptyStorage, signedOut)
        [Event.settled .verify (.obj [("email", .str "a@b.com"), ("code", .str "1234")])
          (.response (.obj [("success", .bool true), ("user", .obj [("id", .num (.int 1))])])),
         Event.settled .checkAuth .undefined (.error none)]).1 "authToken" ≠ none) :=
  ⟨rfl, by intro e he; simp at he; rcases he with rfl | rfl <;> rfl,
    authenticated_is_backed examplePlatform emptyStorage signedOut _ rfl
      (by intro e he; simp at he; rcases he with rfl | rfl <;> rfl)⟩

/-- C2: for every prior state and storage and every login response with `success = true`, a
string token `t` and a user `u`, the login call settles as fulfilled, the `login.fulfilled`
transition yields `isAuthenticated = true` and `user = u`, and the storage afterwards holds
`authToken = t` and `user = JSON.stringify(u)`. -/
theorem login_success_persists (J : Platform N) (ls : Storage) (st : AuthState N)
    (arg data : JSVal N) (t : String) (u : JSVal N)
    (hs : data.getProp "success" = .ok (.bool true))
    (ht : data.getProp "token" = .ok (.str t)) (hu : data.getProp "user" = .ok u)
    (hdef : u ≠ .undefined) :
    loginUser J (.response data) ls
      = ((step J (ls, st) (.settled .login arg (.response data))).1, .fulfilled data) ∧
    authReducer J (step J (ls, st) (.settled .login arg (.response data))).1 st
        (.lifecycle .login .fulfilled data)
      = .ok (step J (ls, st) (.settled .login arg (.response data))).2 ∧
    (step J (ls, st) (.settled .login arg (.response data))).2.isAuthenticated = .bool true ∧
    (step J (ls, st) (.settled .login arg (.response data))).2.user = u ∧
    getItem (step J (ls, st) (.settled .login arg (.response data))).1 "authToken"
      = (.str t : JSVal N) ∧
    getItem (step J (ls, st) (.settled .login arg (.response data))).1 "user"
      = JSON_stringify J u := by
  have ht' := getProp_ok_optProp ht
  have hu' := getProp_ok_optProp hu
  obtain ⟨txt, htxt⟩ := JSON_stringify_defined J u hdef
  simp [step, runThunk, loginUser, hs, settleAction, dispatch, authReducer, JSVal.truthy,
    JSVal.cond, ht', hu', htxt, getItem, setItem, JSVal.toStr, toStrChars]

/-- C2 at the response `{success: true, token: "T", user: {id: 1}}`. -/
theorem login_success_persists_witness :
    (JSVal.obj [("success", .bool true), ("token", .str "T"),
        ("user", .obj [("id", .num (ExNum.int 1))])]).getProp "success" = .ok (.bool true) ∧
    (step examplePlatform (emptyStorage, signedOut) (.settled .login .undefined (.response
      (.obj [("success", .bool true), ("token", .str "T"),
        ("user", .obj [("id", .num (.int 1))])])))).2.user = .obj [("id", .num (.int 1))] ∧
    getItem (step examplePlatform (emptyStorage, signedOut) (.settled .login .undefined
      (.response (.obj [("success", .bool true), ("token", .str "T"),
        ("user", .obj [("id", .num (.int 1))])])))).1 "user"
      = (.str userOneText : JSVal ExNum) :=
  ⟨rfl,
    (login_success_persists examplePlatform emptyStorage signedOut .undefined
      (.obj [("success", .bool true), ("token", .str "T"),
        ("user", .obj [("id", .num (.int 1))])])
      "T" (.obj [("id", .num (.int 1))]) rfl rfl rfl (by intro h; cases h)).2.2.2.1,
    rfl⟩

/-- C3: for every prior state, storage and response payload, a logout call that succeeds
settles as fulfilled with both records removed, and the `logout.fulfilled` transition yields
`isAuthenticated = false` and `user = null`. -/
theorem logout_success_clears (J : Platform N) (ls : Storage) (st : AuthState N)
    (arg data : JSVal N) :
    logoutUser J (.response data) ls
      = ((step J (ls, st) (.settled .logout arg (.response data))).1, .fulfilled data) ∧
    authReducer J (step J (ls, st) (.settled .logout arg (.response data))).1 st
        (.lifecycle .logout .fulfilled data)
      = .ok (step J (ls, st) (.settled .logout arg (.response data))).2 ∧
    (step J (ls, st) (.settled .logout arg (.response data))).2.isAuthenticated = .bool false ∧
    (step J (ls, st) (.settled .logout arg (.response data))).2.user = .null ∧
    (step J (ls, st) (.settled .logout arg (.response data))).1 "authToken" = none ∧
    (step J (ls, st) (.settled .logout arg (.response data))).1 "user" = none := by
  simp [step, runThunk, logoutUser, settleAction, dispatch, authReducer, removeItem]

/-- C4, as stated, fails in two ways: with an `authToken` record holding the empty string,
`checkAuth.fulfilled` with `success = false` yields `isAuthenticated = false`; and with a
token stored next to a `user` record that is not JSON, the transition throws and yields no
state. -/
theorem checkAuth_fallback_needs_nonempty_token :
    (setItem examplePlatform emptyStorage "authToken" (.str "")) "authToken" = some "" ∧
    authReducer examplePlatform (setItem examplePlatform emptyStorage "authToken" (.str ""))
        signedOut (.lifecycle .checkAuth .fulfilled (.obj [("success", .bool false)]))
      = .ok signedOut ∧
    (signedOut : AuthState ExNum).isAuthenticated = .bool false ∧
    (setItem examplePlatform (setItem examplePlatform emptyStorage "authToken" (.str "T"))
      "user" (.str "not json")) "authToken" = some "T" ∧
    authReducer examplePlatform
        (setItem examplePlatform (setItem examplePlatform emptyStorage "authToken" (.str "T"))
          "user" (.str "not json"))
        signedOut (.lifecycle .checkAuth .fulfilled (.obj [("success", .bool false)]))
      = .error .syntaxError :=
  ⟨rfl, rfl, rfl, rfl, rfl⟩

/-- C4, amended: for every prior state and every storage whose `authToken` record holds a
non-empty string and whose `user` record is absent or parses as JSON, the
`checkAuth.fulfilled` transition with a falsy `payload.success` yields
`isAuthenticated = true` (with `isLoading = false` and `user` the parsed record). -/
theorem checkAuth_token_fallback (J : Platform N) (ls : Storage) (st : AuthState N)
    (data s u : JSVal N) (t : String) (hs : data.getProp "success" = .ok s)
    (hfalse : s.truthy J = false) (htok : ls "authToken" = some t) (hne : t ≠ "")
    (hparse : JSON_parse J (getItem ls "user") = .ok u) :
    authReducer J ls st (.lifecycle .checkAuth .fulfilled data)
      = .ok { st with isLoading := false, user := u, isAuthenticated := .bool true } := by
  simp only [authReducer, hs, hfalse, hparse, JSVal.or, JSVal.notNot]
  simp [getItem, htok, JSVal.truthy, hne]

/-- C4, amended, at the storage `{authToken: "T"}` and the payload `{success: false}`. -/
theorem checkAuth_token_fallback_witness :
    (setItem examplePlatform emptyStorage "authToken" (.str "T")) "authToken" = some "T" ∧
    authReducer examplePlatform (setItem examplePlatform emptyStorage "authToken" (.str "T"))
        signedOut (.lifecycle .checkAuth .fulfilled (.obj [("success", .bool false)]))
      = .ok { signedOut with isLoading := false, user := .null, isAuthenticated := .bool true } :=
  ⟨rfl, checkAuth_token_fallback examplePlatform
    (setItem examplePlatform emptyStorage "authToken" (.str "T")) signedOut
    (.obj [("success", .bool false)]) (.bool false) .null "T" rfl rfl rfl (by decide) rfl⟩

/-- C5, as stated, fails: with the `user` record holding `not json`, building the initial state
throws, and so does `checkAuth.fulfilled` with `success = false`; neither yields
`user = null`. -/
theorem corrupt_user_record_faults :
    initialState examplePlatform (setItem examplePlatform emptyStorage "user" (.str "not json"))
      = .error .syntaxError ∧
    authReducer examplePlatform (setItem examplePlatform emptyStorage "user" (.str "not json"))
        signedOut (.lifecycle .checkAuth .fulfilled (.obj [("success", .bool false)]))
      = .error .syntaxError ∧
    dispatch examplePlatform (setItem examplePlatform emptyStorage "user" (.str "not json"))
        signedOut (.lifecycle .checkAuth .fulfilled (.obj [("success", .bool false)]))
      = signedOut :=
  ⟨rfl, rfl, rfl⟩

/-- C5, amended: on every platform and for every storage whose `user` record holds a text on
which `JSON.parse` throws, both reads throw: building the initial state fails with the
`SyntaxError`, and the `checkAuth.fulfilled` transition with a falsy `payload.success` fails
with it and leaves the state as it was. -/
theorem unparsable_user_record_faults (J : Platform N) (ls : Storage) (text : String)
    (hrec : ls "user" = some text) (hbad : J.parse text.data = none) :
    initialState J ls = .error .syntaxError ∧
    ∀ (st : AuthState N) (data s : JSVal N), data.getProp "success" = .ok s →
      s.truthy J = false →
      authReducer J ls st (.lifecycle .checkAuth .fulfilled data) = .error .syntaxError ∧
      dispatch J ls st (.lifecycle .checkAuth .fulfilled data) = st := by
  have hp : JSON_parse J (getItem ls "user") = .error .syntaxError := by
    simp [JSON_parse, getItem, hrec, toStrChars, hbad]
  refine ⟨by simp [initialState, hp], ?_⟩
  intro st data s hs hfalse
  simp [dispatch, authReducer, hs, hfalse, hp]

/-- C5, amended, at the record `not json` and the `checkAuth` payload `{success: false}` on
the example platform. -/
theorem unparsable_user_record_faults_witness :
    (setItem examplePlatform emptyStorage "user" (.str "not json")) "user" = some "not json" ∧
    examplePlatform.parse "not json".data = none ∧
    initialState examplePlatform (setItem examplePlatform emptyStorage "user" (.str "not json"))
      = .error .syntaxError ∧
    dispatch examplePlatform (setItem examplePlatform emptyStorage "user" (.str "not json"))
        signedOut (.lifecycle .checkAuth .fulfilled (.obj [("success", .bool false)]))
      = signedOut :=
  ⟨rfl, rfl,
    (unparsable_user_record_faults examplePlatform
      (setItem examplePlatform emptyStorage "user" (.str "not json")) "not json" rfl rfl).1,
    ((unparsable_user_record_faults examplePlatform
      (setItem examplePlatform emptyStorage "user" (.str "not json")) "not json" rfl rfl).2
      signedOut (.obj [("success", .bool false)]) (.bool false) rfl rfl).2⟩

/-- C6, as stated, fails in three ways. A successful login response without a user makes the
login call store the text `undefined`, on which building the initial state throws. With the
token `""` the reloaded state has `isAuthenticated = false` while `login.fulfilled` gave
`true`. With the user `0` the reloaded state has `user = null` while `login.fulfilled` gave
`0`. -/
theorem reload_after_login_can_differ :
    initialState examplePlatform (loginUser examplePlatform
      (.response (.obj [("success", .bool true), ("token", .str "T")])) emptyStorage).1
      = .error .syntaxError ∧
    authReducer examplePlatform (loginUser examplePlatform
        (.response (.obj [("success", .bool true), ("token", .str ""),
          ("user", .obj [("id", .num (.int 1))])])) emptyStorage).1 signedOut
      (.lifecycle .login .fulfilled (.obj [("success", .bool true), ("token", .str ""),
        ("user", .obj [("id", .num (.int 1))])]))
      = .ok { signedOut with
              isAuthenticated := .bool true, user := .obj [("id", .num (.int 1))] } ∧
    initialState examplePlatform (loginUser examplePlatform
        (.response (.obj [("success", .bool true), ("token", .str ""),
          ("user", .obj [("id", .num (.int 1))])])) emptyStorage).1
      = .ok { signedOut with
              isAuthenticated := .bool false, user := .obj [("id", .num (.int 1))] } ∧
    authReducer examplePlatform (loginUser examplePlatform
        (.response (.obj [("success", .bool true), ("token", .str "T"),
          ("user", .num (.int 0))])) emptyStorage).1 signedOut
      (.lifecycle .login .fulfilled (.obj [("success", .bool true), ("token", .str "T"),
        ("user", .num (.int 0))]))
      = .ok { signedOut with isAuthenticated := .bool true, user := .num (.int 0) } ∧
    initialState examplePlatform (loginUser examplePlatform
        (.response (.obj [("success", .bool true), ("token", .str "T"),
          ("user", .num (.int 0))])) emptyStorage).1
      = .ok { signedOut with isAuthenticated := .bool true, user := .null } :=
  ⟨rfl, rfl, rfl, rfl, rfl⟩

/-- C6, amended: on every platform and for every login response with `success = true`, a
token whose string form is not empty and a user `u` that `JSON.parse(JSON.stringify(u))` gives
back unchanged and that is truthy or `null`, building the initial state from the storage the
login call wrote succeeds and gives the `isAuthenticated` (`true`) and the `user` of the
state produced by `login.fulfilled`. -/
theorem reload_after_login (J : Platform N) (ls : Storage) (st : AuthState N)
    (data token u : JSVal N) (hs : data.getProp "success" = .ok (.bool true))
    (ht : data.getProp "token" = .ok token) (htne : token.toStr J ≠ "")
    (hu : data.getProp "user" = .ok u)
    (hround : JSON_parse J (JSON_stringify J u) = .ok u)
    (huser : u.truthy J = true ∨ u = .null) :
    ∃ st1 st2 : AuthState N,
      authReducer J (loginUser J (.response data) ls).1 st (.lifecycle .login .fulfilled data)
        = .ok st1 ∧
      initialState J (loginUser J (.response data) ls).1 = .ok st2 ∧
      st1.isAuthenticated = .bool true ∧ st2.isAuthenticated = .bool true ∧
      st1.user = u ∧ st2.user = u := by
  have ht' := getProp_ok_optProp ht
  have hu' := getProp_ok_optProp hu
  have hdef : u ≠ .undefined := by
    rcases huser with h | h
    · intro hu0; rw [hu0] at h; cases h
    · rw [h]; intro hu0; cases hu0
  obtain ⟨txt, htxt⟩ := JSON_stringify_defined J u hdef
  rw [htxt] at hround
  have hls : (loginUser J (.response data) ls).1
      = setItem J (setItem J ls "authToken" token) "user" (.str txt) := by
    simp [loginUser, hs, JSVal.truthy, ht', hu', htxt]
  have hgu : getItem (setItem J (setItem J ls "authToken" token) "user" (.str txt)) "user"
      = (.str txt : JSVal N) := by
    simp [getItem, setItem, toStr_str]
  have hgt : getItem (setItem J (setItem J ls "authToken" token) "user" (.str txt)) "authToken"
      = (.str (token.toStr J) : JSVal N) := by
    simp [getItem, setItem]
  have hor : u.or J .null = u := by
    rcases huser with h | h
    · simp [JSVal.or, h]
    · subst h; rfl
  have hcond : (JSVal.bool true).cond J u .null = u := by simp [JSVal.cond, JSVal.truthy]
  refine ⟨_, _, by simp only [authReducer, hs]; rfl,
    by simp only [initialState, hls, hgu, hround]; rfl, rfl, ?_, ?_, ?_⟩
  · simp [hgt, JSVal.notNot, JSVal.truthy, htne]
  · simp [hu', hcond]
  · exact hor

/-- C6, amended, at the response `{success: true, token: "T", user: {id: 1}}` on the example
platform. -/
theorem reload_after_login_witness :
    (JSVal.str "T").toStr examplePlatform ≠ "" ∧
    JSON_parse examplePlatform (JSON_stringify examplePlatform (.obj [("id", .num (.int 1))]))
      = .ok (.obj [("id", .num (.int 1))]) ∧
    ∃ st1 st2 : AuthState ExNum,
      authReducer examplePlatform (loginUser examplePlatform
          (.response (.obj [("success", .bool true), ("token", .str "T"),
            ("user", .obj [("id", .num (.int 1))])])) emptyStorage).1 signedOut
        (.lifecycle .login .fulfilled (.obj [("success", .bool true), ("token", .str "T"),
          ("user", .obj [("id", .num (.int 1))])])) = .ok st1 ∧
      initialState examplePlatform (loginUser examplePlatform
          (.response (.obj [("success", .bool true), ("token", .str "T"),
            ("user", .obj [("id", .num (.int 1))])])) emptyStorage).1 = .ok st2 ∧
      st1.isAuthenticated = .bool true ∧ st2.isAuthenticated = .bool true ∧
      st1.user = .obj [("id", .num (.int 1))] ∧ st2.user = .obj [("id", .num (.int 1))] :=
  ⟨by decide, rfl,
    reload_after_login examplePlatform emptyStorage signedOut
      (.obj [("success", .bool true), ("token", .str "T"),
        ("user", .obj [("id", .num (.int 1))])])
      (.str "T") (.obj [("id", .num (.int 1))]) rfl rfl (by decide) rfl rfl (Or.inl rfl)⟩

/-- C7, as stated, fails: decoding does not undo encoding for every record. The record
`{id: Infinity}` (what a response `{"id": 1e999}` is read as) has the JSON text `{"id":null}`,
so the initial state built from the storage holding `authToken = "T"` and that text has
`user = {id: null}`, which is not the record. The record `{a: undefined}` has the JSON text of
the empty object, so the initial state has `user = {}`, which is not the record either. -/
theorem initialState_loses_nonfinite_number :
    getItem (setItem examplePlatform (setItem examplePlatform emptyStorage "authToken" (.str "T"))
      "user" (JSON_stringify examplePlatform (.obj [("id", .num .infinity)]))) "user"
      = JSON_stringify examplePlatform (.obj [("id", .num .infinity)]) ∧
    JSON_stringify examplePlatform (.obj [("id", .num .infinity)])
      = JSON_stringify examplePlatform (.obj [("id", .null)]) ∧
    initialState examplePlatform
        (setItem examplePlatform (setItem examplePlatform emptyStorage "authToken" (.str "T"))
          "user" (JSON_stringify examplePlatform (.obj [("id", .num .infinity)])))
      = .ok { isAuthenticated := .bool true, isLoading := false, user := .obj [("id", .null)],
              error := .null, resetPasswordStatus := .null, resetPasswordError := .null } ∧
    (JSVal.obj [("id", .null)] : JSVal ExNum) ≠ .obj [("id", .num .infinity)] ∧
    JSON_stringify examplePlatform (.obj [("a", .undefined)])
      = JSON_stringify examplePlatform (.obj []) ∧
    initialState examplePlatform
        (setItem examplePlatform (setItem examplePlatform emptyStorage "authToken" (.str "T"))
          "user" (JSON_stringify examplePlatform (.obj [("a", .undefined)])))
      = .ok { isAuthenticated := .bool true, isLoading := false, user := .obj [],
              error := .null, resetPasswordStatus := .null, resetPasswordError := .null } ∧
    (JSVal.obj [] : JSVal ExNum) ≠ .obj [("a", .undefined)] :=
  ⟨rfl, rfl, rfl, (by intro h; cases h), rfl, rfl, (by intro h; cases h)⟩

/-- C7, amended: on every platform, for every non-empty token string `T` and every truthy
value `u` that `JSON.parse(JSON.stringify(u))` gives back unchanged, the initial state built
from storage holding `authToken = T` and `user = JSON.stringify(u)` has
`isAuthenticated = true` and `user = u`, with `isLoading = false` and `error`,
`resetPasswordStatus`, `resetPasswordError` all `null`; and when both records are absent,
`JSON.parse` reading the text `null` as `null`, the initial state has
`isAuthenticated = false` and `user = null`, the other fields being the same. -/
theorem initialState_from_storage (J : Platform N) :
    (∀ (ls : Storage) (T : String) (u : JSVal N), T ≠ "" → u.truthy J = true →
      JSON_parse J (JSON_stringify J u) = .ok u →
      getItem ls "authToken" = (.str T : JSVal N) → getItem ls "user" = JSON_stringify J u →
      initialState J ls
        = .ok { isAuthenticated := .bool true, isLoading := false, user := u, error := .null,
                resetPasswordStatus := .null, resetPasswordError := .null }) ∧
    (∀ ls : Storage, J.parse "null".data = some .null → ls "authToken" = none →
      ls "user" = none →
      initialState J ls
        = .ok { isAuthenticated := .bool false, isLoading := false, user := .null,
                error := .null, resetPasswordStatus := .null, resetPasswordError := .null }) := by
  constructor
  · intro ls T u hT htruthy hround htok huser
    simp only [initialState, huser, hround, htok, JSVal.notNot, JSVal.or, htruthy]
    simp [JSVal.truthy, hT]
  · intro ls hnull h1 h2
    have hu : getItem ls "user" = (.null : JSVal N) := by simp only [getItem, h2]
    have ha : getItem ls "authToken" = (.null : JSVal N) := by simp only [getItem, h1]
    have hp : JSON_parse J (.null : JSVal N) = .ok .null := by
      simp only [JSON_parse, toStrChars, hnull]
    simp only [initialState, hu, ha, hp]
    rfl

/-- C7, amended, at the storage `{authToken: "T", user: {"id":1}}` of the spec's round-trip
and at the empty storage, on the example platform. -/
theorem initialState_from_storage_witness :
    getItem (setItem examplePlatform (setItem examplePlatform emptyStorage "authToken" (.str "T"))
      "user" (.str userOneText)) "authToken" = (.str "T" : JSVal ExNum) ∧
    getItem (setItem examplePlatform (setItem examplePlatform emptyStorage "authToken" (.str "T"))
      "user" (.str userOneText)) "user"
      = JSON_stringify examplePlatform (.obj [("id", .num (.int 1))]) ∧
    JSON_parse examplePlatform (JSON_stringify examplePlatform (.obj [("id", .num (.int 1))]))
      = .ok (.obj [("id", .num (.int 1))]) ∧
    initialState examplePlatform
        (setItem examplePlatform (setItem examplePlatform emptyStorage "authToken" (.str "T"))
          "user" (.str userOneText))
      = .ok { isAuthenticated := .bool true, isLoading := false,
              user := .obj [("id", .num (.int 1))], error := .null, resetPasswordStatus := .null,
              resetPasswordError := .null } ∧
    examplePlatform.parse "null".data = some .null ∧
    initialState examplePlatform emptyStorage
      = .ok { isAuthenticated := .bool false, isLoading := false, user := .null,
              error := .null, resetPasswordStatus := .null, resetPasswordError := .null } :=
  ⟨rfl, rfl, rfl, (initialState_from_storage examplePlatform).1
    (setItem examplePlatform (setItem examplePlatform emptyStorage "authToken" (.str "T"))
      "user" (.str userOneText)) "T"
    (.obj [("id", .num (.int 1))]) (by decide) rfl rfl rfl rfl, rfl,
    (initialState_from_storage examplePlatform).2 emptyStorage rfl rfl rfl⟩

/-- C8, as stated, fails: when the server's error body is `{error: "bad"}` the register call
rejects with that body, which carries no `message`; when the body is the text `Bad Gateway`
the rejected value is that string, not an object. -/
theorem rejected_value_may_lack_message :
    (registerUser examplePlatform (.error (some (.obj [("error", .str "bad")])))
        emptyStorage).2
      = .rejected (.obj [("error", .str "bad")]) ∧
    (JSVal.obj [("error", .str "bad")] : JSVal ExNum).getProp "message" = .ok .undefined ∧
    (registerUser examplePlatform (.error (some (.str "Bad Gateway"))) emptyStorage).2
      = .rejected (.str "Bad Gateway") :=
  ⟨rfl, rfl, rfl⟩

/-- C8, amended: for each of the seven operations and every failed request (for `verify` and
`resetPassword`, called with an argument that can be destructured), the thunk leaves the
storage as it was and rejects with the server's error body whenever that body is truthy,
whatever its shape, and with exactly `{message: "An unexpected error occurred"}` when there is
no response or the body is falsy. -/
theorem rejected_value_normalized (J : Platform N) (op : Op) (arg : JSVal N)
    (resp : Option (JSVal N)) (ls : Storage)
    (harg : op = .verify ∨ op = .resetPassword → arg.isNullish = false) :
    runThunk J op arg (.error resp) ls
      = (ls, .rejected (if (errorData resp).truthy J = true then errorData resp
                        else .obj [("message", .str "An unexpected error occurred")])) := by
  cases op <;>
    simp [runThunk, registerUser, loginUser, logoutUser, checkAuth, verifyUser,
      requestPasswordReset, resetPassword, rejectValue, JSVal.or, genericFailure] <;>
    simp [harg]

/-- C8, amended, at a `verify` request that fails without a response. -/
theorem rejected_value_normalized_witness :
    runThunk examplePlatform .verify (.obj [("email", .str "a@b.com"), ("code", .str "1234")])
        (.error none) emptyStorage
      = (emptyStorage, .rejected (.obj [("message", .str "An unexpected error occurred")])) :=
  rejected_value_normalized examplePlatform .verify
    (.obj [("email", .str "a@b.com"), ("code", .str "1234")]) none emptyStorage (fun _ => rfl)

/-- C9: for every prior state and storage, when a login request fails with no response or
with a falsy body, `login.pending` followed by the rejected action the thunk dispatches ends
with `error = "An unexpected error occurred"`, `isAuthenticated = false`, `user = null` and
`isLoading = false`, the storage being as it was. -/
theorem login_failure_without_body (J : Platform N) (ls : Storage) (st : AuthState N)
    (arg : JSVal N) (resp : Option (JSVal N)) (hbody : (errorData resp).truthy J = false) :
    (run J (ls, st) [.pending .login, .settled .login arg (.error resp)]).2.error
      = .str "An unexpected error occurred" ∧
    (run J (ls, st) [.pending .login, .settled .login arg (.error resp)]).2.isAuthenticated
      = .bool false ∧
    (run J (ls, st) [.pending .login, .settled .login arg (.error resp)]).2.user = .null ∧
    (run J (ls, st) [.pending .login, .settled .login arg (.error resp)]).2.isLoading = false ∧
    (run J (ls, st) [.pending .login, .settled .login arg (.error resp)]).1 = ls := by
  have hrej : rejectValue J resp = genericFailure := by simp [rejectValue, JSVal.or, hbody]
  simp only [run, List.foldl, step, runThunk, loginUser, settleAction, dispatch, authReducer,
    hrej]
  refine ⟨?_, ?_, ?_, ?_, ?_⟩ <;> first | rfl | trivial

/-- C9 at a login request that fails without a response, from the signed-out state. -/
theorem login_failure_without_body_witness :
    (errorData (none : Option (JSVal ExNum))).truthy examplePlatform = false ∧
    (run examplePlatform (emptyStorage, signedOut)
      [.pending .login, .settled .login .undefined (.error none)]).2.error
      = .str "An unexpected error occurred" :=
  ⟨rfl, (login_failure_without_body examplePlatform emptyStorage signedOut .undefined none
    rfl).1⟩

/-- C10: every event leaves the storage exactly as it was, except a login request answered
with a truthy `success`, after which the storage is the old one with `authToken` and `user`
set from the response, and a logout request that is answered, after which it is the old one
with both records removed. In particular `setUser`, every pending and rejected action, every
failed request and every outcome of the other five operations change nothing. -/
theorem storage_frame (J : Platform N) (c : Storage × AuthState N) (e : Event N) :
    (step J c e).1 = c.1 ∨
    (∃ arg data s, e = .settled .login arg (.response data) ∧
      data.getProp "success" = .ok s ∧ s.truthy J = true ∧
      (step J c e).1 = setItem J (setItem J c.1 "authToken" (data.optProp "token")) "user"
        (JSON_stringify J (data.optProp "user"))) ∨
    (∃ arg data, e = .settled .logout arg (.response data) ∧
      (step J c e).1 = removeItem (removeItem c.1 "authToken") "user") := by
  rcases e with x | op | ⟨op, p⟩ | ⟨op, arg, res⟩
  · exact Or.inl rfl
  · exact Or.inl rfl
  · exact Or.inl rfl
  · cases op <;> cases res
    case login.response data =>
      cases hs : data.getProp "success" with
      | error e => left; simp [step, runThunk, loginUser, hs]
      | ok s =>
        by_cases ht : s.truthy J = true
        · right; left
          exact ⟨arg, data, s, rfl, hs, ht, by simp [step, runThunk, loginUser, hs, ht]⟩
        · left; simp [step, runThunk, loginUser, hs, ht]
    case logout.response data =>
      right; right
      exact ⟨arg, data, rfl, by simp [step, runThunk, logoutUser]⟩
    case verify.response data =>
      left; by_cases ha : arg.isNullish = true <;> simp [step, runThunk, verifyUser, ha]
    case verify.error r =>
      left; by_cases ha : arg.isNullish = true <;> simp [step, runThunk, verifyUser, ha]
    case resetPassword.response data =>
      left; by_cases ha : arg.isNullish = true <;> simp [step, runThunk, resetPassword, ha]
    case resetPassword.error r =>
      left; by_cases ha : arg.isNullish = true <;> simp [step, runThunk, resetPassword, ha]
    all_goals
      left
      simp [step, runThunk, registerUser, loginUser, logoutUser, checkAuth,
        requestPasswordReset]

/-- C11: for every state, storage and payload, `logout.pending` and `logout.rejected` return
the state as it is (all six fields, `isAuthenticated` included), and a logout request that
fails leaves the storage as it was, so the whole failed logout changes nothing. -/
theorem logout_failure_changes_nothing (J : Platform N) (ls : Storage) (st : AuthState N)
    (arg payload : JSVal N) (resp : Option (JSVal N)) :
    authReducer J ls st (.lifecycle .logout .pending payload) = .ok st ∧
    authReducer J ls st (.lifecycle .logout .rejected payload) = .ok st ∧
    (logoutUser J (.error resp) ls).1 = ls ∧
    run J (ls, st) [.pending .logout, .settled .logout arg (.error resp)] = (ls, st) :=
  ⟨rfl, rfl, rfl, rfl⟩

/-- C12, as stated, fails: `logout.pending` has no case in the reducer, so from a state with
`isLoading = false` it yields the same state, with `isLoading = false`. -/
theorem logout_pending_not_loading :
    authReducer examplePlatform emptyStorage signedOut (.lifecycle .logout .pending .undefined)
      = .ok signedOut ∧
    (signedOut : AuthState ExNum).isLoading = false :=
  ⟨rfl, rfl⟩

/-- C12, amended: for each of the six operations other than logout and every prior state, the
pending transition yields a state with `isLoading = true`; `logout.pending` yields the prior
state. -/
theorem pending_sets_loading (J : Platform N) (ls : Storage) (st : AuthState N)
    (payload : JSVal N) :
    (∀ op : Op, op ≠ .logout →
      ∃ st', authReducer J ls st (.lifecycle op .pending payload) = .ok st' ∧
        st'.isLoading = true) ∧
    authReducer J ls st (.lifecycle .logout .pending payload) = .ok st := by
  refine ⟨?_, rfl⟩
  intro op hop
  cases op
  case logout => exact absurd rfl hop
  all_goals exact ⟨_, rfl, rfl⟩

/-- C12, amended, at `checkAuth.pending` from the signed-out state. -/
theorem pending_sets_loading_witness :
    Op.checkAuth ≠ Op.logout ∧
    ∃ st', authReducer examplePlatform emptyStorage signedOut
        (.lifecycle .checkAuth .pending .undefined) = .ok st' ∧ st'.isLoading = true :=
  ⟨by decide,
    (pending_sets_loading examplePlatform emptyStorage signedOut .undefined).1 .checkAuth
      (by decide)⟩

/-- C13: from every state and storage, after `checkAuth.pending`, `login.pending` and the
`checkAuth` request settling on a successful response (any user `u` in it), `isLoading` is
`false` although `login` was started and neither its fulfilled nor its rejected action has
been applied. -/
theorem loading_flag_lost (J : Platform N) (ls : Storage) (st : AuthState N) (u : JSVal N) :
    (run J (ls, st) [.pending .checkAuth, .pending .login]).2.isLoading = true ∧
    (run J (ls, st)
      [.pending .checkAuth, .pending .login,
        .settled .checkAuth .undefined
          (.response (.obj [("success", .bool true), ("user", u)]))]
      ).2.isLoading = false ∧
    outstanding
      [.pending .checkAuth, .pending .login,
        .settled .checkAuth .undefined
          (.response (.obj [("success", .bool true), ("user", u)]))]
      .login = true :=
  ⟨rfl, rfl, rfl⟩

/-- The rejected transitions of `register`, `login`, `checkAuth` and `verify` never throw, set
`isLoading = false` and set `error` to `payload?.message || fallback`. -/
theorem rejected_sets_error (J : Platform N) (ls : Storage) (st : AuthState N)
    (payload : JSVal N) :
    (∃ st', authReducer J ls st (.lifecycle .register .rejected payload) = .ok st' ∧
      st'.isLoading = false ∧
      st'.error = (payload.optProp "message").or J (.str "Registration failed")) ∧
    (∃ st', authReducer J ls st (.lifecycle .login .rejected payload) = .ok st' ∧
      st'.isLoading = false ∧
      st'.error = (payload.optProp "message").or J (.str "Login failed")) ∧
    (∃ st', authReducer J ls st (.lifecycle .checkAuth .rejected payload) = .ok st' ∧
      st'.isLoading = false ∧
      st'.error = (payload.optProp "message").or J (.str "Authentication check failed")) ∧
    (∃ st', authReducer J ls st (.lifecycle .verify .rejected payload) = .ok st' ∧
      st'.isLoading = false ∧
      st'.error = (payload.optProp "message").or J (.str "Verification failed")) :=
  ⟨⟨_, rfl, rfl, rfl⟩, ⟨_, rfl, rfl, rfl⟩, ⟨_, rfl, rfl, rfl⟩,
    ⟨_, rfl, rfl, rfl⟩⟩

theorem or_str_truthy (J : Platform N) (m : JSVal N) (fb : String) (hfb : fb ≠ "") :
    (m.or J (.str fb)).truthy J = true := by
  unfold JSVal.or
  split
  · assumption
  · simp [JSVal.truthy, hfb]

/-- C14, as stated, fails: when the rejected payload is `{message: 42}` the `login.rejected`
transition sets `error` to the number `42`, which is neither a string nor the fallback. -/
theorem rejected_error_may_not_be_string :
    authReducer examplePlatform emptyStorage signedOut
        (.lifecycle .login .rejected (.obj [("message", .num (.int 42))]))
      = .ok { signedOut with error := .num (.int 42) } :=
  rfl

/-- C14, amended: for each of `register`, `login`, `checkAuth` and `verify`, every prior state
and every rejected payload (absent included), the rejected transition does not throw, sets
`isLoading = false` and sets `error` to the payload's `message` when that message is truthy,
whatever its type, and to the operation's fixed fallback string otherwise. So `error` is
truthy, hence never `null`; it is the message when the message is a non-empty string, and the
fallback when the payload is absent or the message is absent, `null` or the empty string. -/
theorem rejected_error (J : Platform N) (ls : Storage) (st : AuthState N)
    (payload : JSVal N) (op : Op) (fallback : String)
    (hop : (op = .register ∧ fallback = "Registration failed") ∨
      (op = .login ∧ fallback = "Login failed") ∨
      (op = .checkAuth ∧ fallback = "Authentication check failed") ∨
      (op = .verify ∧ fallback = "Verification failed")) :
    ∃ st', authReducer J ls st (.lifecycle op .rejected payload) = .ok st' ∧
      st'.isLoading = false ∧
      st'.error = (if (payload.optProp "message").truthy J = true then payload.optProp "message"
                   else .str fallback) ∧
      st'.error.truthy J = true ∧ st'.error ≠ .null ∧
      (∀ m : String, payload.optProp "message" = .str m → m ≠ "" → st'.error = .str m) ∧
      (payload.isNullish = true ∨ payload.optProp "message" = .undefined ∨
        payload.optProp "message" = .null ∨ payload.optProp "message" = .str "" →
        st'.error = .str fallback) := by
  have key : ∀ (st' : AuthState N),
      st'.error = (payload.optProp "message").or J (.str fallback) → fallback ≠ "" →
      st'.error = (if (payload.optProp "message").truthy J = true then payload.optProp "message"
                   else .str fallback) ∧
      st'.error.truthy J = true ∧ st'.error ≠ .null ∧
      (∀ m : String, payload.optProp "message" = .str m → m ≠ "" → st'.error = .str m) ∧
      (payload.isNullish = true ∨ payload.optProp "message" = .undefined ∨
        payload.optProp "message" = .null ∨ payload.optProp "message" = .str "" →
        st'.error = .str fallback) := by
    intro st' he hfb
    have ht : st'.error.truthy J = true := by rw [he]; exact or_str_truthy J _ _ hfb
    refine ⟨by rw [he]; rfl, ht, ?_, ?_, ?_⟩
    · intro hnull
      rw [hnull] at ht
      cases ht
    · intro m hm hne
      rw [he, hm]
      simp [JSVal.or, JSVal.truthy, hne]
    · intro h
      have hmsg : (payload.optProp "message").truthy J = false := by
        rcases h with h | h | h | h
        · cases payload <;> simp [JSVal.isNullish] at h <;> rfl
        · rw [h]; rfl
        · rw [h]; rfl
        · rw [h]; rfl
      rw [he]
      simp [JSVal.or, hmsg]
  obtain ⟨h1, h2, h3, h4⟩ := rejected_sets_error J ls st payload
  rcases hop with ⟨rfl, rfl⟩ | ⟨rfl, rfl⟩ | ⟨rfl, rfl⟩ | ⟨rfl, rfl⟩
  · obtain ⟨st', hr, hl, he⟩ := h1
    exact ⟨st', hr, hl, key st' he (by decide)⟩
  · obtain ⟨st', hr, hl, he⟩ := h2
    exact ⟨st', hr, hl, key st' he (by decide)⟩
  · obtain ⟨st', hr, hl, he⟩ := h3
    exact ⟨st', hr, hl, key st' he (by decide)⟩
  · obtain ⟨st', hr, hl, he⟩ := h4
    exact ⟨st', hr, hl, key st' he (by decide)⟩

/-- C14, amended, at `checkAuth.rejected` with an absent payload. -/
theorem rejected_error_witness :
    ∃ st', authReducer examplePlatform emptyStorage signedOut
        (.lifecycle .checkAuth .rejected .undefined) = .ok st' ∧ st'.isLoading = false ∧
      st'.error = .str "Authentication check failed" := by
  obtain ⟨st', hr, hl, -, -, -, -, hfb⟩ :=
    rejected_error examplePlatform emptyStorage signedOut .undefined .checkAuth
      "Authentication check failed" (Or.inr (Or.inr (Or.inl ⟨rfl, rfl⟩)))
  exact ⟨st', hr, hl, hfb (Or.inl rfl)⟩

/-- C15: for `register`, `requestPasswordReset` and `resetPassword`, every prior state, every
phase and every payload, a state the transition yields has the `user` and the
`isAuthenticated` of the prior state, and so has the store's state afterwards (a transition
that throws leaves the store's state as it was). -/
theorem reset_and_register_keep_session (J : Platform N) (ls : Storage) (st : AuthState N)
    (op : Op) (phase : Phase) (payload : JSVal N)
    (hop : op = .register ∨ op = .requestPasswordReset ∨ op = .resetPassword) :
    (∀ st', authReducer J ls st (.lifecycle op phase payload) = .ok st' →
      st'.user = st.user ∧ st'.isAuthenticated = st.isAuthenticated) ∧
    (dispatch J ls st (.lifecycle op phase payload)).user = st.user ∧
    (dispatch J ls st (.lifecycle op phase payload)).isAuthenticated = st.isAuthenticated := by
  have main : ∀ st', authReducer J ls st (.lifecycle op phase payload) = .ok st' →
      st'.user = st.user ∧ st'.isAuthenticated = st.isAuthenticated := by
    intro st' h
    rcases hop with rfl | rfl | rfl <;> cases phase <;>
      simp only [authReducer] at h
    all_goals first
      | (cases h; exact ⟨rfl, rfl⟩)
      | (cases hs : payload.getProp "success" <;> rw [hs] at h <;> cases h
         exact ⟨rfl, rfl⟩)
  refine ⟨main, ?_⟩
  unfold dispatch
  cases hr : authReducer J ls st (.lifecycle op phase payload) with
  | error e => exact ⟨rfl, rfl⟩
  | ok st' => exact main st' hr

/-- C15 at `resetPassword.fulfilled` with the payload `{success: true}`. -/
theorem reset_and_register_keep_session_witness :
    (dispatch examplePlatform emptyStorage signedOut
      (.lifecycle .resetPassword .fulfilled (.obj [("success", .bool true)]))).user
      = (signedOut : AuthState ExNum).user ∧
    (dispatch examplePlatform emptyStorage signedOut
      (.lifecycle .resetPassword .fulfilled (.obj [("success", .bool true)]))).isAuthenticated
      = (signedOut : AuthState ExNum).isAuthenticated :=
  (reset_and_register_keep_session examplePlatform emptyStorage signedOut .resetPassword
    .fulfilled
    (.obj [("success", .bool true)]) (Or.inr (Or.inr rfl))).2

/-- C16: for every state and every value `x`, `setUser(x)` yields the state with `user = x`,
`isAuthenticated = !!x` and every other field unchanged, and applying `setUser(x)` again
yields that same state. `!!x` is `false` for `null` and `true` for every record. -/
theorem setUser_idempotent (J : Platform N) (ls : Storage) (st : AuthState N) (x : JSVal N) :
    authReducer J ls st (.setUser x)
      = .ok { st with user := x, isAuthenticated := .bool (x.truthy J) } ∧
    authReducer J ls { st with user := x, isAuthenticated := .bool (x.truthy J) } (.setUser x)
      = .ok { st with user := x, isAuthenticated := .bool (x.truthy J) } ∧
    run J (ls, st) [.setUser x, .setUser x] = run J (ls, st) [.setUser x] ∧
    JSVal.truthy J .null = false ∧ (∀ kvs, JSVal.truthy J (.obj kvs) = true) :=
  ⟨rfl, rfl, rfl, rfl, fun _ => rfl⟩

/-- C17, as stated, fails: answered `null`, the `requestPasswordReset.fulfilled`
transition faults with a `TypeError`, so the store keeps its state and no label is set; and
answered `{success: 1}`, where `success` is not `true`, it sets the success label. -/
theorem reset_status_not_by_true :
    authReducer examplePlatform emptyStorage signedOut
        (.lifecycle .requestPasswordReset .fulfilled .null) = .error .typeError ∧
    (run examplePlatform (emptyStorage, signedOut)
      [.settled .requestPasswordReset .undefined (.response .null)]).2.resetPasswordStatus
      = .null ∧
    (JSVal.num (.int 1) : JSVal ExNum) ≠ .bool true ∧
    (dispatch examplePlatform emptyStorage signedOut
      (.lifecycle .requestPasswordReset .fulfilled
        (.obj [("success", .num (.int 1))]))).resetPasswordStatus
      = .str "Request Successful" :=
  ⟨rfl, rfl, (by intro h; cases h), rfl⟩

/-- C17, amended: every payload is either `null` or `undefined`, or its `success` can be read.
For both password-reset operations and every prior state, on a payload whose `success` can be
read the fulfilled transition sets `resetPasswordStatus` to the operation's success label
exactly when `payload.success` is truthy and to its failure label exactly when it is falsy;
on a payload that is `null` or `undefined` the fulfilled transition faults with a `TypeError`
and the store keeps its state; for every payload the rejected transition sets the failure
label and stores the payload in `resetPasswordError`. -/
theorem reset_status_labels (J : Platform N) (ls : Storage) (st : AuthState N)
    (payload : JSVal N) :
    (payload.isNullish = true ∨ ∃ s, payload.getProp "success" = .ok s) ∧
    (∀ s : JSVal N, payload.getProp "success" = .ok s →
      (∃ st', authReducer J ls st (.lifecycle .requestPasswordReset .fulfilled payload)
          = .ok st' ∧
        (st'.resetPasswordStatus = .str "Request Successful" ↔ s.truthy J = true) ∧
        (st'.resetPasswordStatus = .str "Request Failed" ↔ s.truthy J = false)) ∧
      (∃ st', authReducer J ls st (.lifecycle .resetPassword .fulfilled payload) = .ok st' ∧
        (st'.resetPasswordStatus = .str "Password Reset Successful" ↔ s.truthy J = true) ∧
        (st'.resetPasswordStatus = .str "Password Reset Failed" ↔ s.truthy J = false))) ∧
    (payload.isNullish = true →
      authReducer J ls st (.lifecycle .requestPasswordReset .fulfilled payload)
        = .error .typeError ∧
      dispatch J ls st (.lifecycle .requestPasswordReset .fulfilled payload) = st ∧
      authReducer J ls st (.lifecycle .resetPassword .fulfilled payload)
        = .error .typeError ∧
      dispatch J ls st (.lifecycle .resetPassword .fulfilled payload) = st) ∧
    (∃ st', authReducer J ls st (.lifecycle .requestPasswordReset .rejected payload)
        = .ok st' ∧
      st'.resetPasswordStatus = .str "Request Failed" ∧ st'.resetPasswordError = payload) ∧
    (∃ st', authReducer J ls st (.lifecycle .resetPassword .rejected payload) = .ok st' ∧
      st'.resetPasswordStatus = .str "Password Reset Failed" ∧
      st'.resetPasswordError = payload) := by
  refine ⟨?_, ?_, ?_, ⟨_, rfl, rfl, rfl⟩, ⟨_, rfl, rfl, rfl⟩⟩
  · cases payload <;> simp [JSVal.isNullish, JSVal.getProp]
  · intro s hs
    refine ⟨⟨_, by simp only [authReducer, hs]; rfl, ?_, ?_⟩,
      ⟨_, by simp only [authReducer, hs]; rfl, ?_, ?_⟩⟩ <;>
    · cases ht : s.truthy J <;> simp [JSVal.cond, ht]
  · intro hn
    cases payload <;> simp [JSVal.isNullish] at hn <;>
    exact ⟨rfl, rfl, rfl, rfl⟩

/-- C17 at the two scenarios of the spec, `requestPasswordReset` answered `{success: false}`
and `resetPassword` answered `{success: true}`, and at `resetPassword` answered `null`. -/
theorem reset_status_labels_witness :
    (∃ st', authReducer examplePlatform emptyStorage signedOut
        (.lifecycle .requestPasswordReset .fulfilled (.obj [("success", .bool false)]))
        = .ok st' ∧ st'.resetPasswordStatus = .str "Request Failed") ∧
    (∃ st', authReducer examplePlatform emptyStorage signedOut
        (.lifecycle .resetPassword .fulfilled (.obj [("success", .bool true)]))
        = .ok st' ∧ st'.resetPasswordStatus = .str "Password Reset Successful") ∧
    dispatch examplePlatform emptyStorage signedOut (.lifecycle .resetPassword .fulfilled .null)
      = signedOut := by
  obtain ⟨st1, h1, -, hf⟩ :=
    ((reset_status_labels examplePlatform emptyStorage signedOut
      (.obj [("success", .bool false)])).2.1 (.bool false) rfl).1
  obtain ⟨st2, h2, ht, -⟩ :=
    ((reset_status_labels examplePlatform emptyStorage signedOut
      (.obj [("success", .bool true)])).2.1 (.bool true) rfl).2
  exact ⟨⟨st1, h1, hf.2 rfl⟩, ⟨st2, h2, ht.2 rfl⟩,
    ((reset_status_labels examplePlatform emptyStorage signedOut .null).2.2.1 rfl).2.2.2⟩

/-- C18: for every prior state, storage and register response payload, `register.pending`
followed by `register.fulfilled` yields a state with `isLoading = false` and `error = null`
whose `user`, `isAuthenticated`, `resetPasswordStatus` and `resetPasswordError` are those of
the prior state, and the storage is as it was. -/
theorem register_round (J : Platform N) (ls : Storage) (st : AuthState N)
    (arg data : JSVal N) :
    run J (ls, st) [.pending .register, .settled .register arg (.response data)]
      = (ls, { st with isLoading := false, error := .null }) ∧
    authReducer J ls st (.lifecycle .register .pending .undefined)
      = .ok { st with isLoading := true, error := .null } ∧
    authReducer J ls { st with isLoading := true, error := .null }
        (.lifecycle .register .fulfilled data)
      = .ok { st with isLoading := false, error := .null } :=
  ⟨rfl, rfl, rfl⟩

/-- C19: for every prior state, storage and rejected payload, `checkAuth.rejected` yields a
state with the `user` and the `isAuthenticated` of the prior state; so a store seeded from a
storage that holds a non-empty `authToken` starts authenticated and is still authenticated,
with the same user, after `checkAuth.pending` followed by `checkAuth.rejected`, or by the
`checkAuth` request failing. -/
theorem checkAuth_failure_keeps_session (J : Platform N) (ls : Storage) (st0 : AuthState N)
    (payload arg : JSVal N) (resp : Option (JSVal N)) (t : String)
    (htok : ls "authToken" = some t) (hne : t ≠ "")
    (hinit : initialState J ls = .ok st0) :
    (∀ st : AuthState N, ∃ st',
      authReducer J ls st (.lifecycle .checkAuth .rejected payload) = .ok st' ∧
      st'.user = st.user ∧ st'.isAuthenticated = st.isAuthenticated) ∧
    st0.isAuthenticated = .bool true ∧
    (run J (ls, st0) [.pending .checkAuth, .rejected .checkAuth payload]).2.isAuthenticated
      = .bool true ∧
    (run J (ls, st0) [.pending .checkAuth, .rejected .checkAuth payload]).2.user = st0.user ∧
    (run J (ls, st0)
      [.pending .checkAuth, .settled .checkAuth arg (.error resp)]).2.isAuthenticated
      = .bool true ∧
    (run J (ls, st0) [.pending .checkAuth, .settled .checkAuth arg (.error resp)]).2.user
      = st0.user := by
  have hauth : st0.isAuthenticated = .bool true := by
    unfold initialState at hinit
    split at hinit
    · cases hinit
    · cases hinit
      simp [JSVal.notNot, getItem, htok, JSVal.truthy, hne]
  exact ⟨fun _ => ⟨_, rfl, rfl, rfl⟩, hauth, hauth, rfl, hauth, rfl⟩

/-- C19 at a store seeded from the storage `{authToken: "T"}`, the request failing without a
response. -/
theorem checkAuth_failure_keeps_session_witness :
    initialState examplePlatform (setItem examplePlatform emptyStorage "authToken" (.str "T"))
      = .ok { signedOut with isAuthenticated := .bool true } ∧
    (run examplePlatform (setItem examplePlatform emptyStorage "authToken" (.str "T"),
        { signedOut with isAuthenticated := .bool true })
      [.pending .checkAuth, .settled .checkAuth .undefined (.error none)]).2.isAuthenticated
      = .bool true :=
  ⟨rfl, (checkAuth_failure_keeps_session examplePlatform
    (setItem examplePlatform emptyStorage "authToken" (.str "T"))
    { signedOut with isAuthenticated := .bool true } .undefined .undefined none "T" rfl
    (by decide) rfl).2.2.2.2.1⟩

/-- C20: for every prior state and payload, `requestPasswordReset.fulfilled` and
`resetPassword.fulfilled` leave `resetPasswordError` as it was; so after a rejected reset
followed by a fulfilled one with a truthy `success`, the state has the success label in
`resetPasswordStatus` together with the payload of the earlier failure in
`resetPasswordError`, and the value a failed request rejects with is never `null`. -/
theorem reset_error_survives_success (J : Platform N) (ls : Storage) (st : AuthState N)
    (p data s : JSVal N)
    (hs : data.getProp "success" = .ok s) (ht : s.truthy J = true) :
    (∀ payload : JSVal N,
      (dispatch J ls st (.lifecycle .requestPasswordReset .fulfilled payload)).resetPasswordError
        = st.resetPasswordError ∧
      (dispatch J ls st (.lifecycle .resetPassword .fulfilled payload)).resetPasswordError
        = st.resetPasswordError) ∧
    (run J (ls, st) [.rejected .requestPasswordReset p,
        .settled .requestPasswordReset .undefined (.response data)]).2.resetPasswordStatus
      = .str "Request Successful" ∧
    (run J (ls, st) [.rejected .requestPasswordReset p,
        .settled .requestPasswordReset .undefined (.response data)]).2.resetPasswordError
      = p ∧
    (run J (ls, st) [.rejected .resetPassword p,
        .settled .resetPassword (.obj []) (.response data)]).2.resetPasswordStatus
      = .str "Password Reset Successful" ∧
    (run J (ls, st) [.rejected .resetPassword p,
        .settled .resetPassword (.obj []) (.response data)]).2.resetPasswordError = p ∧
    (∀ resp : Option (JSVal N),
      (rejectValue J resp).truthy J = true ∧ rejectValue J resp ≠ .null) := by
  refine ⟨?_, ?_, ?_, ?_, ?_, ?_⟩
  · intro payload
    constructor <;>
    · cases hp : payload.getProp "success" <;> simp [dispatch, authReducer, hp]
  · simp [run, step, runThunk, requestPasswordReset, settleAction, dispatch, authReducer, hs,
      JSVal.cond, ht]
  · simp [run, step, runThunk, requestPasswordReset, settleAction, dispatch, authReducer, hs]
  · simp [run, step, runThunk, resetPassword, JSVal.isNullish, settleAction, dispatch,
      authReducer, hs, JSVal.cond, ht]
  · simp [run, step, runThunk, resetPassword, JSVal.isNullish, settleAction, dispatch,
      authReducer, hs]
  · intro resp
    have htr : (rejectValue J resp).truthy J = true := by
      unfold rejectValue JSVal.or
      split
      · assumption
      · rfl
    refine ⟨htr, ?_⟩
    intro hnull
    rw [hnull] at htr
    cases htr

/-- C20 at a `requestPasswordReset` rejected with the generic failure object, followed by one
answered `{success: true}`. -/
theorem reset_error_survives_success_witness :
    (JSVal.obj [("success", .bool true)] : JSVal ExNum).getProp "success"
      = .ok (.bool true) ∧
    (run examplePlatform (emptyStorage, signedOut)
      [.rejected .requestPasswordReset genericFailure,
        .settled .requestPasswordReset .undefined
          (.response (.obj [("success", .bool true)]))]).2.resetPasswordStatus
      = .str "Request Successful" ∧
    (run examplePlatform (emptyStorage, signedOut)
      [.rejected .requestPasswordReset genericFailure,
        .settled .requestPasswordReset .undefined
          (.response (.obj [("success", .bool true)]))]).2.resetPasswordError
      = genericFailure :=
  ⟨rfl,
    (reset_error_survives_success examplePlatform emptyStorage signedOut genericFailure
      (.obj [("success", .bool true)]) (.bool true) rfl rfl).2.1,
    (reset_error_survives_success examplePlatform emptyStorage signedOut genericFailure
      (.obj [("success", .bool true)]) (.bool true) rfl rfl).2.2.1⟩

end AuthSlice
